import Mathlib

set_option maxHeartbeats 1000000

/-
Shallow embedding of the kineto activity-profiler core
(src/libkineto/src/CuptiActivityProfiler.cpp and
src/libkineto/src/ActivityType.cpp).

Machine integers (int32/uint32/int64 ids, timestamps and durations) are
modelled as Nat (identifiers, counters) and Int (timestamps, durations);
the source never relies on wrap-around for these quantities.
unordered_map / map / set containers are modelled as association lists
with lookup by decidable equality; std::optional and fallible lookups
are modelled with Option.  External collaborators (the CUPTI backend,
the output logger sink, child-profiler sessions, the client hook) only
produce or consume data at the interface boundary; their calls carry no
profiler-visible state and are noted in comments where they occur.
-/

namespace libkineto

/-- Activity type tags, mirroring `enum class ActivityType`.  The enum order
is pinned by the `matchingOrder` static assertion in ActivityType.cpp:
entry `i` of the name table has enum value `i`. -/
inductive ActivityType where
  | CPU_OP
  | USER_ANNOTATION
  | GPU_USER_ANNOTATION
  | GPU_MEMCPY
  | GPU_MEMSET
  | CONCURRENT_KERNEL
  | EXTERNAL_CORRELATION
  | CUDA_RUNTIME
  | CUDA_DRIVER
  | CPU_INSTANT_EVENT
  | PYTHON_FUNCTION
  | OVERHEAD
  | MTIA_RUNTIME
  | MTIA_CCP_EVENTS
  | MTIA_INSIGHT
  | CUDA_SYNC
  | CUDA_EVENT
  | GLOW_RUNTIME
  | CUDA_PROFILER_RANGE
  | HPU_OP
  | XPU_RUNTIME
  | XPU_DRIVER
  | COLLECTIVE_COMM
  | PRIVATEUSE1_RUNTIME
  | PRIVATEUSE1_DRIVER
  | ENUM_COUNT
deriving DecidableEq

instance : Inhabited ActivityType := ⟨ActivityType.CPU_OP⟩

/-- The `(int)` cast applied to an ActivityType in the C++ source. -/
def ActivityType.toIdx : ActivityType → Nat
  | .CPU_OP => 0
  | .USER_ANNOTATION => 1
  | .GPU_USER_ANNOTATION => 2
  | .GPU_MEMCPY => 3
  | .GPU_MEMSET => 4
  | .CONCURRENT_KERNEL => 5
  | .EXTERNAL_CORRELATION => 6
  | .CUDA_RUNTIME => 7
  | .CUDA_DRIVER => 8
  | .CPU_INSTANT_EVENT => 9
  | .PYTHON_FUNCTION => 10
  | .OVERHEAD => 11
  | .MTIA_RUNTIME => 12
  | .MTIA_CCP_EVENTS => 13
  | .MTIA_INSIGHT => 14
  | .CUDA_SYNC => 15
  | .CUDA_EVENT => 16
  | .GLOW_RUNTIME => 17
  | .CUDA_PROFILER_RANGE => 18
  | .HPU_OP => 19
  | .XPU_RUNTIME => 20
  | .XPU_DRIVER => 21
  | .COLLECTIVE_COMM => 22
  | .PRIVATEUSE1_RUNTIME => 23
  | .PRIVATEUSE1_DRIVER => 24
  | .ENUM_COUNT => 25

/-- `constexpr int activityTypeCount = (int)ActivityType::ENUM_COUNT`. -/
def activityTypeCount : Nat := 25

/-- One entry of the name table in ActivityType.cpp. -/
structure ActivityTypeName where
  name : String
  type : ActivityType
deriving DecidableEq

instance : Inhabited ActivityTypeName := ⟨{ name := "", type := ActivityType.CPU_OP }⟩

/-- The `map` array of ActivityType.cpp (activityTypeCount + 1 entries). -/
def map : List ActivityTypeName :=
  [ { name := "cpu_op", type := ActivityType.CPU_OP },
    { name := "user_annotation", type := ActivityType.USER_ANNOTATION },
    { name := "gpu_user_annotation", type := ActivityType.GPU_USER_ANNOTATION },
    { name := "gpu_memcpy", type := ActivityType.GPU_MEMCPY },
    { name := "gpu_memset", type := ActivityType.GPU_MEMSET },
    { name := "kernel", type := ActivityType.CONCURRENT_KERNEL },
    { name := "external_correlation", type := ActivityType.EXTERNAL_CORRELATION },
    { name := "cuda_runtime", type := ActivityType.CUDA_RUNTIME },
    { name := "cuda_driver", type := ActivityType.CUDA_DRIVER },
    { name := "cpu_instant_event", type := ActivityType.CPU_INSTANT_EVENT },
    { name := "python_function", type := ActivityType.PYTHON_FUNCTION },
    { name := "overhead", type := ActivityType.OVERHEAD },
    { name := "mtia_runtime", type := ActivityType.MTIA_RUNTIME },
    { name := "mtia_ccp_events", type := ActivityType.MTIA_CCP_EVENTS },
    { name := "mtia_insight", type := ActivityType.MTIA_INSIGHT },
    { name := "cuda_sync", type := ActivityType.CUDA_SYNC },
    { name := "cuda_event", type := ActivityType.CUDA_EVENT },
    { name := "glow_runtime", type := ActivityType.GLOW_RUNTIME },
    { name := "cuda_profiler_range", type := ActivityType.CUDA_PROFILER_RANGE },
    { name := "hpu_op", type := ActivityType.HPU_OP },
    { name := "xpu_runtime", type := ActivityType.XPU_RUNTIME },
    { name := "xpu_driver", type := ActivityType.XPU_DRIVER },
    { name := "collective_comm", type := ActivityType.COLLECTIVE_COMM },
    { name := "privateuse1_runtime", type := ActivityType.PRIVATEUSE1_RUNTIME },
    { name := "privateuse1_driver", type := ActivityType.PRIVATEUSE1_DRIVER },
    { name := "ENUM_COUNT", type := ActivityType.ENUM_COUNT } ]

/-- `const char* toString(ActivityType t) { return map[(int)t].name; }` -/
def toString (t : ActivityType) : String :=
  (map.getD t.toIdx default).name

/-- `ActivityType toActivityType(const std::string& str)`: linear scan over the
first `activityTypeCount` entries; the thrown `std::invalid_argument` is
modelled as `none`. -/
def toActivityType (str : String) : Option ActivityType :=
  ((map.take activityTypeCount).find? (fun e => e.name == str)).map (fun e => e.type)

/-- Runloop states of the profiler state machine. -/
inductive RunloopState where
  | WaitForRequest
  | Warmup
  | CollectTrace
  | ProcessTrace
  | CollectMemorySnapshot
deriving DecidableEq

/-- The categorized anomaly counters (`CuptiActivityProfiler::ErrorCounts`). -/
structure ErrorCounts where
  out_of_range_events : Nat := 0
  blocklisted_runtime_events : Nat := 0
  invalid_external_correlation_events : Nat := 0
  gpu_and_cpu_op_out_of_order : Nat := 0
  unexepected_cuda_events : Nat := 0
  cupti_stopped_early : Bool := false
deriving DecidableEq

/-- The slice of the configuration snapshot read by ConfigDerivedState and
configure.  Times and durations in the same (integer) unit. -/
structure Config where
  selectedActivityTypes : List ActivityType := []
  requestTimestamp : Int := 0
  activitiesDuration : Int := 0
  activitiesWarmupDuration : Int := 0
  hasProfileStartIteration : Bool := false
  profileStartIteration : Int := 0
  activitiesRunIterations : Int := 0
  perThreadBufferEnabled : Bool := false
deriving DecidableEq

/-- `ConfigDerivedState`: the capture-window data derived once per capture. -/
structure ConfigDerivedState where
  profileActivityTypes : List ActivityType := []
  profileStartTime : Int := 0
  profileEndTime : Int := 0
  profileDuration : Int := 0
  profileWarmupDuration : Int := 0
  profileStartIter : Int := 0
  profileEndIter : Int := 0
  profilingByIter : Bool := false
  perThreadBufferEnabled : Bool := false
deriving DecidableEq

instance : Inhabited ConfigDerivedState := ⟨{}⟩

/-- The ConfigDerivedState constructor. -/
def ConfigDerivedState.ofConfig (config : Config) : ConfigDerivedState :=
  let base : ConfigDerivedState :=
    { profileActivityTypes := config.selectedActivityTypes
      profileStartTime := config.requestTimestamp
      profileDuration := config.activitiesDuration
      profileWarmupDuration := config.activitiesWarmupDuration
      profilingByIter := config.hasProfileStartIteration
      perThreadBufferEnabled := config.perThreadBufferEnabled }
  if config.hasProfileStartIteration then
    { base with
      profileStartIter := config.profileStartIteration
      profileEndIter := config.profileStartIteration + config.activitiesRunIterations }
  else
    { base with
      profileEndIter := (2 : Int) ^ 63 - 1
      profileEndTime := config.requestTimestamp + config.activitiesDuration }

/-- `ConfigDerivedState::canStart`. -/
def ConfigDerivedState.canStart (d : ConfigDerivedState) (now : Int) : Bool :=
  if d.profilingByIter then true
  else if d.profileStartTime < now then false
  else if d.profileStartTime - now < d.profileWarmupDuration then false
  else true

/-- `ConfigDerivedState::isWarmupDone`. -/
def ConfigDerivedState.isWarmupDone (d : ConfigDerivedState) (now currentIter : Int) : Bool :=
  if !d.profilingByIter && decide (currentIter < 0) then
    decide (d.profileStartTime ≤ now)
  else if d.profilingByIter && decide (0 ≤ currentIter) then
    decide (d.profileStartIter ≤ currentIter)
  else false

/-- `ConfigDerivedState::isCollectionDone`. -/
def ConfigDerivedState.isCollectionDone (d : ConfigDerivedState) (now currentIter : Int) : Bool :=
  if !d.profilingByIter && decide (currentIter < 0) then
    decide (d.profileEndTime ≤ now)
  else if d.profilingByIter && decide (0 ≤ currentIter) then
    decide (d.profileEndIter ≤ currentIter)
  else false

/-- The ITraceActivity view of an activity record: the capability set used by
the profiler core.  `linkedCorrelationId` models the correlation id of the
record's `linkedActivity()` pointer (set when the record was converted). -/
structure Act where
  correlationId : Nat := 0
  timestamp : Int := 0
  duration : Int := 0
  deviceId : Nat := 0
  resourceId : Nat := 0
  type : ActivityType := ActivityType.CPU_OP
  linkedCorrelationId : Option Nat := none
  name : String := ""
deriving DecidableEq

/-- `TraceSpan` (the output-cosmetic name-prefix field is omitted). -/
structure TraceSpan where
  startTime : Int := 0
  endTime : Int := 0
  opCount : Nat := 0
  iteration : Nat := 0
  name : String := ""
deriving DecidableEq

/-- A CPU trace buffer handed over by `transferCpuTrace`. -/
structure CpuTraceBuffer where
  span : TraceSpan := {}
  gpuOpCount : Nat := 0
  activities : List Act := []
deriving DecidableEq

/-- `GenericTraceActivity` as produced by `createUserGpuSpan` (only the fields
that function and `insertOrExtendEvent` touch). -/
structure GenericTraceActivity where
  type : ActivityType := ActivityType.GPU_USER_ANNOTATION
  name : String := ""
  startTime : Int := 0
  endTime : Int := 0
  device : Nat := 0
  resource : Nat := 0
  id : Nat := 0
deriving DecidableEq

/-- `WaitEventInfo`: the (stream, correlation id) that last recorded an event. -/
structure WaitEventInfo where
  stream : Nat := 0
  correlationId : Nat := 0
deriving DecidableEq

/-- A `DeferredLogEntry`.  The zero-argument `logMe` closure marshals the
logging of the sync activity itself; we carry that activity as data. -/
structure DeferredLogEntry where
  device : Nat := 0
  stream : Nat := 0
  act : Act := {}
deriving DecidableEq

/-- Association-list lookup (models find on unordered_map / map). -/
def lookupA {α β : Type} [DecidableEq α] (l : List (α × β)) (k : α) : Option β :=
  match l with
  | [] => none
  | p :: rest => if p.1 = k then some p.2 else lookupA rest k

/-- Association-list in-place modification of the entry at a key. -/
def updateA {α β : Type} [DecidableEq α] (l : List (α × β)) (k : α) (f : β → β) :
    List (α × β) :=
  l.map (fun p => if p.1 = k then (p.1, f p.2) else p)

/-- Association-list write (models `m[k] = v`, inserting if the key is new). -/
def setA {α β : Type} [DecidableEq α] (l : List (α × β)) (k : α) (v : β) :
    List (α × β) :=
  if (lookupA l k).isSome then updateA l k (fun _ => v) else l ++ [(k, v)]

/-- Set-style insert (models `std::set::insert`): no duplicates. -/
def insertOnce {α : Type} [DecidableEq α] (l : List α) (x : α) : List α :=
  if x ∈ l then l else l ++ [x]

/-- Inner map of `GpuUserEventMap`: CPU correlation id → synthetic span. -/
abbrev CorrelationSpanMap : Type := List (Nat × GenericTraceActivity)

/-- Outer map of `GpuUserEventMap`: (device, stream) → CorrelationSpanMap. -/
abbrev StreamSpanMap : Type := List ((Nat × Nat) × CorrelationSpanMap)

/-- The profiler-visible mutable state of `CuptiActivityProfiler`.
`waitEventMap` and `ctxToDeviceId` are process-global tables in the source
(file-scope statics); they are carried here so that their lifecycle across
reset is part of the model.  `stopCollection` mirrors the backend's
`cupti_.stopCollection` flag as polled by the run loop.  Child-profiler
sessions, resource-info naming and logging are external collaborators and
are not tracked. -/
structure ProfilerState where
  currentRunloopState : RunloopState := RunloopState.WaitForRequest
  captureWindowStartTime : Int := 0
  captureWindowEndTime : Int := 0
  rangeProfilingActive : Bool := false
  gpuActivityPresent : Bool := false
  cpuActivityPresent : Bool := false
  stopCollection : Bool := false
  config : Config := {}
  derivedConfig : ConfigDerivedState := {}
  ecs : ErrorCounts := {}
  activityMap : List (Nat × Act) := []
  cpuCorrelationMap : List (Nat × Nat) := []
  userCorrelationMap : List (Nat × Nat) := []
  correlatedCudaActivities : List (Nat × Act) := []
  clientActivityTraceMap : List (Nat × Nat) := []
  spanPairs : List (Nat × (TraceSpan × TraceSpan)) := []
  gpuUserEventMap : StreamSpanMap := []
  seenDeviceStreams : List (Nat × Nat) := []
  logQueue : List DeferredLogEntry := []
  traceBuffers : Option (List CpuTraceBuffer) := none
  metadata : List (String × String) := []
  iterationCountMap : List (String × Nat) := []
  resourceOverheadCount : Nat := 0
  waitEventMap : List ((Nat × Nat) × WaitEventInfo) := []
  ctxToDeviceId : List (Nat × Nat) := []
deriving DecidableEq

/-- `CuptiActivityProfiler::outOfRange`: returns the boolean verdict together
with the updated state (the out-of-range counter is bumped inside). -/
def outOfRange (s : ProfilerState) (act : Act) : Bool × ProfilerState :=
  let out_of_range : Bool :=
    decide (act.timestamp < s.captureWindowStartTime) ||
      decide (s.captureWindowEndTime < act.timestamp + act.duration)
  let s2 :=
    if out_of_range then
      { s with ecs := { s.ecs with out_of_range_events := s.ecs.out_of_range_events + 1 } }
    else s
  let zero_ts : Bool := s.rangeProfilingActive && decide (act.timestamp = 0)
  (!zero_ts && out_of_range, s2)

/-- `CuptiActivityProfiler::checkTimestampOrder`.  The map stores the first
record seen per correlation id; on the second sight the roles are swapped so
that the runtime record comes first, a zero GPU timestamp is exempt, and a
runtime timestamp later than the GPU timestamp bumps the out-of-order
counter. -/
def checkTimestampOrder (s : ProfilerState) (act1 : Act) : ProfilerState :=
  match lookupA s.correlatedCudaActivities act1.correlationId with
  | none =>
      { s with correlatedCudaActivities :=
          s.correlatedCudaActivities ++ [(act1.correlationId, act1)] }
  | some act2 =>
      let p := if act2.type = ActivityType.CUDA_RUNTIME then (act2, act1) else (act1, act2)
      if p.2.timestamp = 0 then s
      else if p.2.timestamp < p.1.timestamp then
        { s with ecs :=
            { s.ecs with gpu_and_cpu_op_out_of_order := s.ecs.gpu_and_cpu_op_out_of_order + 1 } }
      else s

/-- `createUserGpuSpan`. -/
def createUserGpuSpan (cpuTraceActivity gpuTraceActivity : Act) : GenericTraceActivity :=
  { type := ActivityType.GPU_USER_ANNOTATION
    name := cpuTraceActivity.name
    startTime := gpuTraceActivity.timestamp
    device := gpuTraceActivity.deviceId
    resource := gpuTraceActivity.resourceId
    endTime := gpuTraceActivity.timestamp + gpuTraceActivity.duration
    id := cpuTraceActivity.correlationId }

/-- The widening applied to an existing user span by `insertOrExtendEvent`
(start widens down, with 0 treated as unset; end widens up). -/
def widenUserSpan (span : GenericTraceActivity) (g : Act) : GenericTraceActivity :=
  let span :=
    if g.timestamp < span.startTime ∨ span.startTime = 0 then
      { span with startTime := g.timestamp }
    else span
  { span with endTime := max (g.timestamp + g.duration) span.endTime }

/-- The body of `insertOrExtendEvent` acting on one per-stream
`CorrelationSpanMap`: insert a fresh span for an unseen CPU correlation id,
then widen the span at that id. -/
def insertOrExtendInner (inner : CorrelationSpanMap)
    (cpuTraceActivity gpuTraceActivity : Act) : CorrelationSpanMap :=
  let inner2 :=
    match lookupA inner cpuTraceActivity.correlationId with
    | none => inner ++
        [(cpuTraceActivity.correlationId, createUserGpuSpan cpuTraceActivity gpuTraceActivity)]
    | some _ => inner
  updateA inner2 cpuTraceActivity.correlationId
    (fun sp => widenUserSpan sp gpuTraceActivity)

/-- `CuptiActivityProfiler::GpuUserEventMap::insertOrExtendEvent`. -/
def insertOrExtendEvent (m : StreamSpanMap) (cpuTraceActivity gpuTraceActivity : Act) :
    StreamSpanMap :=
  let key := (gpuTraceActivity.deviceId, gpuTraceActivity.resourceId)
  setA m key (insertOrExtendInner ((lookupA m key).getD []) cpuTraceActivity gpuTraceActivity)

/-- The widening applied to the paired GPU trace span by `updateGpuNetSpan`. -/
def widenGpuSpan (span : TraceSpan) (gpuOp : Act) : TraceSpan :=
  let span :=
    if gpuOp.timestamp < span.startTime ∨ span.startTime = 0 then
      { span with startTime := gpuOp.timestamp }
    else span
  { span with endTime := max (gpuOp.timestamp + gpuOp.duration) span.endTime }

/-- `CuptiActivityProfiler::updateGpuNetSpan`: resolve the span pair through
the linked activity's correlation id and widen its GPU half. -/
def updateGpuNetSpan (s : ProfilerState) (gpuOp : Act) : ProfilerState :=
  match gpuOp.linkedCorrelationId with
  | none => s
  | some cid =>
    match lookupA s.clientActivityTraceMap cid with
    | none => s
    | some pid =>
      { s with spanPairs :=
          updateA s.spanPairs pid (fun pr => (pr.1, widenGpuSpan pr.2 gpuOp)) }

/-- The GPU user-annotation aggregation step at the end of
`handleGpuActivity`: when GPU_USER_ANNOTATION is selected, route the record
through the user-channel correlation map and the activity index and feed
`insertOrExtendEvent`. -/
def handleGpuUserAnnotationStep (s : ProfilerState) (act : Act) : ProfilerState :=
  if s.derivedConfig.profileActivityTypes.contains ActivityType.GPU_USER_ANNOTATION then
    match lookupA s.userCorrelationMap act.correlationId with
    | none => s
    | some ext =>
      match lookupA s.activityMap ext with
      | none => s
      | some cpuAct =>
        { s with gpuUserEventMap := insertOrExtendEvent s.gpuUserEventMap cpuAct act }
  else s

/-- `CuptiActivityProfiler::handleGpuActivity` (the kernel/memcpy/memset
handler): range check, timestamp-order check, seen-stream registration, span
widening and the GPU user-annotation aggregation.  `recordStream` and the
logging of the activity to the sink are external effects; the
`setGpuActivityPresent(true)` flag is tracked. -/
def handleGpuActivity (s : ProfilerState) (act : Act) : ProfilerState :=
  let r := outOfRange s act
  if r.1 then r.2
  else
    let s1 := checkTimestampOrder r.2 act
    let s2 := { s1 with
      seenDeviceStreams := insertOnce s1.seenDeviceStreams (act.deviceId, act.resourceId)
      gpuActivityPresent := true }
    handleGpuUserAnnotationStep (updateGpuNetSpan s2 act) act

/-- `CuptiActivityProfiler::logDeferredEvents`: the flush-time decision.
Returns the queued entries whose deferred log action is invoked; the others
are dropped with a debug note.  (The invoked action itself then logs the sync
activity to the sink, subject to the same range filtering as direct logging.) -/
def logDeferredEvents (s : ProfilerState) : List DeferredLogEntry :=
  s.logQueue.filter (fun e => decide ((e.device, e.stream) ∈ s.seenDeviceStreams))

/-- `CuptiActivityProfiler::resetTraceData`.  The backend clears
(`clearActivities`, `teardownContext`, kernel-registry clear) are external.
Note: `userCorrelationMap_`, the process-global `waitEventMap` /
`ctxToDeviceId` tables and `iterationCountMap_` are not touched here. -/
def resetTraceData (s : ProfilerState) : ProfilerState :=
  { s with
    activityMap := []
    cpuCorrelationMap := []
    correlatedCudaActivities := []
    gpuUserEventMap := []
    spanPairs := []
    clientActivityTraceMap := []
    seenDeviceStreams := []
    logQueue := []
    traceBuffers := none
    metadata := []
    resourceOverheadCount := 0
    ecs := {} }

/-- `CuptiActivityProfiler::resetInternal`. -/
def resetInternal (s : ProfilerState) : ProfilerState :=
  { resetTraceData s with currentRunloopState := RunloopState.WaitForRequest }

/-- `CuptiActivityProfiler::startTraceInternal` (child sessions started as an
external effect). -/
def startTraceInternal (s : ProfilerState) (now : Int) : ProfilerState :=
  { s with
    captureWindowStartTime := now
    currentRunloopState := RunloopState.CollectTrace }

/-- `CuptiActivityProfiler::stopTraceInternal` (backend disable and child
session stops are external effects). -/
def stopTraceInternal (s : ProfilerState) (now : Int) : ProfilerState :=
  { s with
    captureWindowEndTime := now
    currentRunloopState := RunloopState.ProcessTrace }

/-- Modelled from the spec: `CuptiActivityProfiler::isActive` is declared in
CuptiActivityProfiler.h, which is not under src/.  Per the spec, a
configuration request is rejected while a capture is already active, i.e.
whenever the runloop has left WaitForRequest. -/
def isActive (s : ProfilerState) : Bool :=
  decide (s.currentRunloopState ≠ RunloopState.WaitForRequest)

/-- `CuptiActivityProfiler::configure`.  The early return on `isActive`
precedes every mutation.  Logging, backend arming, child-profiler
configuration and the client prepare hook are external effects. -/
def configure (s : ProfilerState) (config : Config) (now : Int) : ProfilerState :=
  if isActive s then s
  else
    let s1 := { s with config := config }
    let s2 := resetTraceData s1
    let d := ConfigDerivedState.ofConfig config
    let s3 := { s2 with derivedConfig := d }
    if !(d.canStart now) then s3
    else
      { s3 with
        rangeProfilingActive :=
          config.selectedActivityTypes.contains ActivityType.CUDA_PROFILER_RANGE
        traceBuffers := some []
        captureWindowStartTime := 0
        captureWindowEndTime := 0
        currentRunloopState := RunloopState.Warmup }

/-- `iterationCountMap_[name]++`: returns the pre-increment value together
with the updated map (operator[] default-inserts 0). -/
def bumpIterationCount (m : List (String × Nat)) (nm : String) :
    Nat × List (String × Nat) :=
  match lookupA m nm with
  | none => (0, m ++ [(nm, 1)])
  | some n => (n, updateA m nm (fun _ => n + 1))

/-- `CuptiActivityProfiler::transferCpuTrace`. -/
def transferCpuTrace (s : ProfilerState) (cpuTrace : CpuTraceBuffer) : ProfilerState :=
  if s.currentRunloopState ≠ RunloopState.CollectTrace ∧
      s.currentRunloopState ≠ RunloopState.ProcessTrace then s
  else
    let r := bumpIterationCount s.iterationCountMap cpuTrace.span.name
    let buf := { cpuTrace with span := { cpuTrace.span with iteration := r.1 } }
    { s with
      iterationCountMap := r.2
      traceBuffers := some ((s.traceBuffers.getD []) ++ [buf]) }

/-- `CuptiActivityProfiler::performRunLoopStep`, state part (the returned
next-wakeup time and thread spawning are outside the model).  The
CollectTrace completion invoked from the application `step()` call
(`currentIter >= 0`) offloads `collectTrace` to a background task; the
ProcessTrace body drives the handlers modelled above and is summarised by its
state effects (iteration counters cleared by `finalizeTrace`, then
`resetInternal`). -/
def performRunLoopStep (s : ProfilerState) (now nextWakeupTime currentIter : Int) :
    ProfilerState :=
  match s.currentRunloopState with
  | RunloopState.CollectMemorySnapshot => s
  | RunloopState.WaitForRequest => s
  | RunloopState.Warmup =>
    let warmup_done := s.derivedConfig.isWarmupDone now currentIter
    if s.stopCollection then
      resetInternal (stopTraceInternal s now)
    else if warmup_done then
      startTraceInternal s now
    else s
  | RunloopState.CollectTrace =>
    let collection_done := s.derivedConfig.isCollectionDone now currentIter
    if collection_done || s.stopCollection then
      if 0 ≤ currentIter then s
      else
        let s1 :=
          if s.stopCollection then
            { s with ecs := { s.ecs with cupti_stopped_early := true } }
          else s
        stopTraceInternal s1 now
    else s
  | RunloopState.ProcessTrace =>
    if 0 ≤ currentIter then s
    else resetInternal { s with iterationCountMap := [] }

/-- Helper for stating the consecutive-iteration-index property of
`transferCpuTrace`: assign indices c, c+1, ... to a list of buffers. -/
def assignIters (c : Nat) : List CpuTraceBuffer → List CpuTraceBuffer
  | [] => []
  | b :: rest =>
      { b with span := { b.span with iteration := c } } :: assignIters (c + 1) rest

theorem lookupA_cons {α β : Type} [DecidableEq α] (p : α × β) (l : List (α × β)) (k : α) :
    lookupA (p :: l) k = if p.1 = k then some p.2 else lookupA l k := rfl

theorem lookupA_append_none {α β : Type} [DecidableEq α] {l : List (α × β)} {k : α}
    (h : lookupA l k = none) (v : β) : lookupA (l ++ [(k, v)]) k = some v := by
  induction l with
  | nil => simp [lookupA]
  | cons p rest ih =>
    rw [lookupA_cons] at h
    rw [List.cons_append, lookupA_cons]
    by_cases hp : p.1 = k
    · simp [hp] at h
    · simp only [hp, if_false] at h ⊢
      exact ih h

theorem lookupA_updateA_self {α β : Type} [DecidableEq α] (l : List (α × β)) (k : α)
    (f : β → β) : lookupA (updateA l k f) k = (lookupA l k).map f := by
  induction l with
  | nil => simp [lookupA, updateA]
  | cons p rest ih =>
    by_cases hp : p.1 = k <;> simp [updateA, lookupA_cons, hp] at ih ⊢ <;> exact ih

theorem updateA_of_lookupA_none {α β : Type} [DecidableEq α] {l : List (α × β)} {k : α}
    (h : lookupA l k = none) (f : β → β) : updateA l k f = l := by
  induction l with
  | nil => rfl
  | cons p rest ih =>
    rw [lookupA_cons] at h
    by_cases hp : p.1 = k
    · simp [hp] at h
    · simp only [hp, if_false] at h
      simp [updateA, hp] at ih ⊢
      exact ih h

theorem updateA_append {α β : Type} [DecidableEq α] (l₁ l₂ : List (α × β)) (k : α)
    (f : β → β) : updateA (l₁ ++ l₂) k f = updateA l₁ k f ++ updateA l₂ k f := by
  unfold updateA
  rw [List.map_append]

theorem updateA_fuse {α β : Type} [DecidableEq α] (l : List (α × β)) (k : α)
    (f g : β → β) : updateA (updateA l k f) k g = updateA l k (fun x => g (f x)) := by
  induction l with
  | nil => rfl
  | cons p rest ih =>
    simp only [updateA, List.map_cons] at ih ⊢
    rw [ih]
    congr 1
    by_cases hp : p.1 = k <;> simp [hp]

theorem updateA_updateA {α β : Type} [DecidableEq α] (l : List (α × β)) (k1 k2 : α)
    (f g : β → β) (h : k1 = k2 → ∀ x, g (f x) = f (g x)) :
    updateA (updateA l k1 f) k2 g = updateA (updateA l k2 g) k1 f := by
  induction l with
  | nil => rfl
  | cons p rest ih =>
    simp only [updateA, List.map_cons] at ih ⊢
    rw [ih]
    congr 1
    by_cases h1 : p.1 = k1 <;> by_cases h2 : p.1 = k2
    · have hk : k1 = k2 := h1.symm.trans h2
      simp [h1, h2, hk, h hk p.2]
    · have hk : ¬(k1 = k2) := fun he => h2 (h1.trans he)
      simp [h1, h2, hk]
    · have hk : ¬(k2 = k1) := fun he => h1 (h2.trans he)
      simp [h1, h2, hk]
    · simp [h1, h2]

theorem lookupA_setA_self {α β : Type} [DecidableEq α] (l : List (α × β)) (k : α)
    (v : β) : lookupA (setA l k v) k = some v := by
  unfold setA
  split_ifs with h
  · rw [lookupA_updateA_self]
    cases hl : lookupA l k with
    | none => rw [hl] at h; simp at h
    | some n => simp
  · have hl : lookupA l k = none := by
      cases hl : lookupA l k with
      | none => rfl
      | some n => rw [hl] at h; simp at h
    exact lookupA_append_none hl v

theorem setA_setA {α β : Type} [DecidableEq α] (l : List (α × β)) (k : α) (v w : β) :
    setA (setA l k v) k w = setA l k w := by
  unfold setA
  split_ifs with h1 h2 h3
  · exact updateA_fuse l k (fun _ => v) (fun _ => w)
  · exfalso
    rw [lookupA_updateA_self] at h2
    cases hl : lookupA l k with
    | none => rw [hl] at h1; simp at h1
    | some n => rw [hl] at h2; simp at h2
  · have hl : lookupA l k = none := by
      cases hl : lookupA l k with
      | none => rfl
      | some n => rw [hl] at h1; simp at h1
    rw [updateA_append, updateA_of_lookupA_none hl]
    simp [updateA]
  · exfalso
    have hl : lookupA l k = none := by
      cases hl : lookupA l k with
      | none => rfl
      | some n => rw [hl] at h1; simp at h1
    rw [lookupA_append_none hl v] at h3
    simp at h3

theorem foldl_perm_of_comm {α β : Type} {f : β → α → β} {P : α → Prop}
    (hc : ∀ x y, P x → P y → ∀ z, f (f z x) y = f (f z y) x) :
    ∀ {l₁ l₂ : List α}, l₁.Perm l₂ → (∀ x ∈ l₁, P x) →
      ∀ b, List.foldl f b l₁ = List.foldl f b l₂ := by
  intro l₁ l₂ hp
  induction hp with
  | nil => intro _ _; rfl
  | cons x _ ih =>
    intro hP b
    simp only [List.foldl_cons]
    exact ih (fun y hy => hP y (List.mem_cons_of_mem x hy)) (f b x)
  | swap x y l =>
    intro hP b
    simp only [List.foldl_cons]
    rw [hc y x (hP y (by simp)) (hP x (by simp)) b]
  | trans p₁ _ ih₁ ih₂ =>
    intro hP b
    rw [ih₁ hP b, ih₂ (fun x hx => hP x (p₁.mem_iff.mpr hx)) b]

theorem widenGpuSpan_comm (sp : TraceSpan) (a b : Act)
    (ha : a.timestamp ≠ 0) (hb : b.timestamp ≠ 0) :
    widenGpuSpan (widenGpuSpan sp a) b = widenGpuSpan (widenGpuSpan sp b) a := by
  unfold widenGpuSpan
  split_ifs <;> simp_all [TraceSpan.mk.injEq] <;> omega

theorem widenUserSpan_comm (sp : GenericTraceActivity) (a b : Act)
    (ha : a.timestamp ≠ 0) (hb : b.timestamp ≠ 0) :
    widenUserSpan (widenUserSpan sp a) b = widenUserSpan (widenUserSpan sp b) a := by
  unfold widenUserSpan
  split_ifs <;> simp_all [GenericTraceActivity.mk.injEq] <;> omega

theorem widenUserSpan_create_comm (cpu g1 g2 : Act) (h1 : g1.timestamp ≠ 0)
    (h2 : g2.timestamp ≠ 0) (hd : g1.deviceId = g2.deviceId)
    (hr : g1.resourceId = g2.resourceId) :
    widenUserSpan (widenUserSpan (createUserGpuSpan cpu g1) g1) g2 =
      widenUserSpan (widenUserSpan (createUserGpuSpan cpu g2) g2) g1 := by
  unfold createUserGpuSpan widenUserSpan
  split_ifs <;> simp_all [GenericTraceActivity.mk.injEq] <;> omega

theorem updateGpuNetSpan_client (s : ProfilerState) (a : Act) :
    (updateGpuNetSpan s a).clientActivityTraceMap = s.clientActivityTraceMap := by
  rcases hla : a.linkedCorrelationId with _ | cid
  · simp [updateGpuNetSpan, hla]
  · rcases hk : lookupA s.clientActivityTraceMap cid with _ | pid <;>
      simp [updateGpuNetSpan, hla, hk]

theorem updateGpuNetSpan_comm (s : ProfilerState) (a b : Act)
    (ha : a.timestamp ≠ 0) (hb : b.timestamp ≠ 0) :
    updateGpuNetSpan (updateGpuNetSpan s a) b = updateGpuNetSpan (updateGpuNetSpan s b) a := by
  rcases hla : a.linkedCorrelationId with _ | ca
  · rcases hlb : b.linkedCorrelationId with _ | cb <;>
      simp [updateGpuNetSpan, hla, hlb]
  · rcases hlb : b.linkedCorrelationId with _ | cb
    · simp [updateGpuNetSpan, hla, hlb]
    · rcases hka : lookupA s.clientActivityTraceMap ca with _ | pa
      · rcases hkb : lookupA s.clientActivityTraceMap cb with _ | pb <;>
          simp [updateGpuNetSpan, hla, hlb, hka, hkb, updateGpuNetSpan_client]
      · rcases hkb : lookupA s.clientActivityTraceMap cb with _ | pb
        · simp [updateGpuNetSpan, hla, hlb, hka, hkb, updateGpuNetSpan_client]
        · simp only [updateGpuNetSpan, hla, hlb, hka, hkb, updateGpuNetSpan_client]
          congr 1
          rw [updateA_updateA]
          intro _ pr
          exact congrArg (Prod.mk pr.1) (widenGpuSpan_comm pr.2 a b ha hb)

theorem insertOrExtendInner_comm (inner : CorrelationSpanMap) (cpu g1 g2 : Act)
    (h1 : g1.timestamp ≠ 0) (h2 : g2.timestamp ≠ 0)
    (hd : g1.deviceId = g2.deviceId) (hr : g1.resourceId = g2.resourceId) :
    insertOrExtendInner (insertOrExtendInner inner cpu g1) cpu g2 =
      insertOrExtendInner (insertOrExtendInner inner cpu g2) cpu g1 := by
  rcases hl : lookupA inner cpu.correlationId with _ | sp
  · -- the first record inserts the fresh span, the second widens it
    have happ : ∀ (g : Act), insertOrExtendInner inner cpu g =
        inner ++ [(cpu.correlationId,
          widenUserSpan (createUserGpuSpan cpu g) g)] := by
      intro g
      simp only [insertOrExtendInner, hl]
      rw [updateA_append, updateA_of_lookupA_none hl]
      simp [updateA]
    rw [happ g1, happ g2]
    simp only [insertOrExtendInner, lookupA_append_none hl]
    rw [updateA_append, updateA_append, updateA_of_lookupA_none hl,
      updateA_of_lookupA_none hl]
    simp [updateA, widenUserSpan_create_comm cpu g1 g2 h1 h2 hd hr]
  · -- both records widen the existing span
    have hupd : ∀ (g : Act), insertOrExtendInner inner cpu g =
        updateA inner cpu.correlationId (fun x => widenUserSpan x g) := by
      intro g
      simp only [insertOrExtendInner, hl]
    rw [hupd g1, hupd g2]
    simp only [insertOrExtendInner, lookupA_updateA_self, hl, Option.map_some']
    exact updateA_updateA inner cpu.correlationId cpu.correlationId _ _
      (fun _ x => widenUserSpan_comm x g1 g2 h1 h2)

theorem insertOrExtendEvent_comm (m : StreamSpanMap) (cpu g1 g2 : Act)
    (h1 : g1.timestamp ≠ 0) (h2 : g2.timestamp ≠ 0)
    (hd : g1.deviceId = g2.deviceId) (hr : g1.resourceId = g2.resourceId) :
    insertOrExtendEvent (insertOrExtendEvent m cpu g1) cpu g2 =
      insertOrExtendEvent (insertOrExtendEvent m cpu g2) cpu g1 := by
  simp only [insertOrExtendEvent]
  rw [← hd, ← hr]
  rw [lookupA_setA_self, lookupA_setA_self]
  rw [setA_setA, setA_setA]
  simp only [Option.getD_some]
  rw [insertOrExtendInner_comm _ cpu g1 g2 h1 h2 hd hr]

/-- C1 counterexample: with range profiling active and capture window
[10, 100), a record with timestamp 0 and duration 5 makes `outOfRange`
return false while the out-of-range counter is nevertheless incremented,
refuting the claim that the counter is incremented exactly for the records
on which `outOfRange` returns true. -/
theorem outOfRange_counter_counterexample :
    (outOfRange
        { rangeProfilingActive := true, captureWindowStartTime := 10,
          captureWindowEndTime := 100 }
        { timestamp := 0, duration := 5 }).1 = false ∧
    (outOfRange
        { rangeProfilingActive := true, captureWindowStartTime := 10,
          captureWindowEndTime := 100 }
        { timestamp := 0, duration := 5 }).2.ecs.out_of_range_events = 1 := by
  constructor <;> rfl

/-- C1 amended: `outOfRange` returns false exactly when the record's interval
[timestamp, timestamp + duration) lies inside the capture window, or when the
record has timestamp 0 while range-profiling mode is active; the out-of-range
counter is incremented exactly when the interval is not contained in the
window — also for zero-timestamp records that the range-profiling exemption
lets through. -/
theorem outOfRange_amended (s : ProfilerState) (act : Act) :
    ((outOfRange s act).1 = false ↔
      ((s.captureWindowStartTime ≤ act.timestamp ∧
        act.timestamp + act.duration ≤ s.captureWindowEndTime) ∨
       (s.rangeProfilingActive = true ∧ act.timestamp = 0))) ∧
    (outOfRange s act).2.ecs.out_of_range_events =
      s.ecs.out_of_range_events +
        (if s.captureWindowStartTime ≤ act.timestamp ∧
            act.timestamp + act.duration ≤ s.captureWindowEndTime then 0 else 1) := by
  unfold outOfRange
  constructor
  · cases hrp : s.rangeProfilingActive <;> simp [hrp] <;> omega
  · by_cases h : act.timestamp < s.captureWindowStartTime ∨
        s.captureWindowEndTime < act.timestamp + act.duration
    · have hb : (decide (act.timestamp < s.captureWindowStartTime) ||
          decide (s.captureWindowEndTime < act.timestamp + act.duration)) = true := by
        rcases h with h | h <;> simp [h]
      simp [hb]
      split_ifs <;> omega
    · rw [not_or] at h
      have hb : (decide (act.timestamp < s.captureWindowStartTime) ||
          decide (s.captureWindowEndTime < act.timestamp + act.duration)) = false := by
        simp [h.1, h.2]
      simp [hb]
      omega

/-- C5 counterexample: `resetTraceData` leaves both the user-channel
external-correlation map and the process-global event-to-stream table in
place, refuting the claim that every per-capture index (in particular both
external-correlation channel maps and the event-to-stream side tables) is
cleared by the reset. -/
theorem resetTraceData_counterexample :
    (resetTraceData
        { userCorrelationMap := [(7, 42)],
          waitEventMap := [((1, 2), { stream := 3, correlationId := 4 })] }).userCorrelationMap
      ≠ [] ∧
    (resetTraceData
        { userCorrelationMap := [(7, 42)],
          waitEventMap := [((1, 2), { stream := 3, correlationId := 4 })] }).waitEventMap
      ≠ [] := by
  constructor <;> decide

/-- C5 amended: after a capture, `resetTraceData` clears the activity map,
the default-channel external-correlation map, the timestamp-order index, the
span trackers (trace-span pairs and the GPU user-annotation map), the
seen-stream set, the deferred-sync queue, the trace buffers, the metadata,
the resource-overhead count and the error counters, and `resetInternal`
returns the runloop to WaitForRequest; but the user-channel
external-correlation map and the process-global event-to-stream and
context-to-device side tables are left untouched, so a subsequent configure
can observe remnants of the previous capture through them. -/
theorem resetTraceData_amended (s : ProfilerState) :
    (resetTraceData s).activityMap = [] ∧
    (resetTraceData s).cpuCorrelationMap = [] ∧
    (resetTraceData s).correlatedCudaActivities = [] ∧
    (resetTraceData s).gpuUserEventMap = [] ∧
    (resetTraceData s).spanPairs = [] ∧
    (resetTraceData s).clientActivityTraceMap = [] ∧
    (resetTraceData s).seenDeviceStreams = [] ∧
    (resetTraceData s).logQueue = [] ∧
    (resetTraceData s).traceBuffers = none ∧
    (resetTraceData s).metadata = [] ∧
    (resetTraceData s).resourceOverheadCount = 0 ∧
    (resetTraceData s).ecs = {} ∧
    (resetTraceData s).userCorrelationMap = s.userCorrelationMap ∧
    (resetTraceData s).waitEventMap = s.waitEventMap ∧
    (resetTraceData s).ctxToDeviceId = s.ctxToDeviceId ∧
    (resetInternal s).currentRunloopState = RunloopState.WaitForRequest :=
  ⟨rfl, rfl, rfl, rfl, rfl, rfl, rfl, rfl, rfl, rfl, rfl, rfl, rfl, rfl, rfl, rfl⟩

/-- C6: in iteration-driven mode `canStart` is always true; in time-driven
mode it is false exactly when `now` is past the configured start time or the
remaining time before the start is shorter than the warmup duration. -/
theorem canStart_spec (d : ConfigDerivedState) (now : Int) :
    (d.profilingByIter = true → d.canStart now = true) ∧
    (d.profilingByIter = false →
      (d.canStart now = false ↔
        (d.profileStartTime < now ∨
          d.profileStartTime - now < d.profileWarmupDuration))) := by
  unfold ConfigDerivedState.canStart
  constructor
  · intro h; simp [h]
  · intro h
    simp only [h, if_false, Bool.false_eq_true]
    by_cases h1 : d.profileStartTime < now <;>
      by_cases h2 : d.profileStartTime - now < d.profileWarmupDuration <;>
      simp [h1, h2]

/-- Witness for canStart_spec. -/
theorem canStart_spec_witness :
    ConfigDerivedState.canStart { profilingByIter := true } 0 = true ∧
    (ConfigDerivedState.canStart
        { profileStartTime := 100, profileWarmupDuration := 10 } 95 = false ↔
      ((100 : Int) < 95 ∨ (100 : Int) - 95 < 10)) :=
  ⟨(canStart_spec { profilingByIter := true } 0).1 rfl,
   (canStart_spec { profileStartTime := 100, profileWarmupDuration := 10 } 95).2 rfl⟩

/-- C7: while a capture is active, `configure` returns without changing any
state — no reset, no derived-config recomputation, no transition to Warmup. -/
theorem configure_rejected_when_active (s : ProfilerState) (config : Config)
    (now : Int) (h : isActive s = true) : configure s config now = s := by
  unfold configure
  simp [h]

/-- Witness for configure_rejected_when_active. -/
theorem configure_rejected_when_active_witness :
    configure { currentRunloopState := RunloopState.Warmup } {} 0 =
      { currentRunloopState := RunloopState.Warmup } :=
  configure_rejected_when_active _ _ _ (by decide)

/-- C8 counterexample: a backend early stop detected in Warmup sends the
driver to WaitForRequest, but the backend-stopped-early error counter is NOT
set on this path (and the reset clears all error counters), refuting the
claim that the early stop is counted. -/
theorem warmup_early_stop_counterexample :
    (performRunLoopStep
        { currentRunloopState := RunloopState.Warmup, stopCollection := true }
        50 60 (-1)).currentRunloopState = RunloopState.WaitForRequest ∧
    (performRunLoopStep
        { currentRunloopState := RunloopState.Warmup, stopCollection := true }
        50 60 (-1)).ecs.cupti_stopped_early = false := by
  constructor <;> rfl

/-- C8 amended: from Warmup, a backend early stop always transitions the
run-loop step to WaitForRequest and never to CollectTrace; the early stop is
only logged, not counted — the backend-stopped-early flag is set only when an
early stop is detected in CollectTrace, and the Warmup-path reset clears the
error counters, so they end at their zero values. -/
theorem warmup_early_stop_amended (s : ProfilerState) (now nextWakeupTime currentIter : Int)
    (hW : s.currentRunloopState = RunloopState.Warmup)
    (hStop : s.stopCollection = true) :
    (performRunLoopStep s now nextWakeupTime currentIter).currentRunloopState =
        RunloopState.WaitForRequest ∧
    (performRunLoopStep s now nextWakeupTime currentIter).currentRunloopState ≠
        RunloopState.CollectTrace ∧
    (performRunLoopStep s now nextWakeupTime currentIter).ecs = {} := by
  simp [performRunLoopStep, hW, hStop, resetInternal, resetTraceData, stopTraceInternal]

theorem checkTimestampOrder_found (t : ProfilerState) (a b : Act)
    (h : lookupA t.correlatedCudaActivities a.correlationId = some b) :
    checkTimestampOrder t a =
      (let p := if b.type = ActivityType.CUDA_RUNTIME then (b, a) else (a, b)
       if p.2.timestamp = 0 then t
       else if p.2.timestamp < p.1.timestamp then
         { t with ecs := { t.ecs with gpu_and_cpu_op_out_of_order :=
             t.ecs.gpu_and_cpu_op_out_of_order + 1 } }
       else t) := by
  unfold checkTimestampOrder
  rw [h]

/-- C2: for a runtime-call record and a GPU-activity record sharing a fresh
correlation id, `checkTimestampOrder` bumps the cpu/gpu-out-of-order counter
by the same amount in either arrival order: by one exactly when the runtime
timestamp is strictly greater than a non-zero GPU timestamp, else by zero. -/
theorem checkTimestampOrder_order_invariant (s : ProfilerState) (r g : Act)
    (hr : r.type = ActivityType.CUDA_RUNTIME)
    (hg : g.type = ActivityType.CONCURRENT_KERNEL ∨ g.type = ActivityType.GPU_MEMCPY ∨
      g.type = ActivityType.GPU_MEMSET)
    (hcorr : r.correlationId = g.correlationId)
    (hfresh : lookupA s.correlatedCudaActivities r.correlationId = none) :
    (checkTimestampOrder (checkTimestampOrder s r) g).ecs.gpu_and_cpu_op_out_of_order =
      s.ecs.gpu_and_cpu_op_out_of_order +
        (if g.timestamp ≠ 0 ∧ g.timestamp < r.timestamp then 1 else 0) ∧
    (checkTimestampOrder (checkTimestampOrder s g) r).ecs.gpu_and_cpu_op_out_of_order =
      s.ecs.gpu_and_cpu_op_out_of_order +
        (if g.timestamp ≠ 0 ∧ g.timestamp < r.timestamp then 1 else 0) := by
  have hgne : ¬(g.type = ActivityType.CUDA_RUNTIME) := by
    rcases hg with h | h | h <;> rw [h] <;> decide
  have hfreshg : lookupA s.correlatedCudaActivities g.correlationId = none :=
    hcorr ▸ hfresh
  have hs1 : checkTimestampOrder s r =
      { s with correlatedCudaActivities :=
          s.correlatedCudaActivities ++ [(r.correlationId, r)] } := by
    unfold checkTimestampOrder
    rw [hfresh]
  have hs2 : checkTimestampOrder s g =
      { s with correlatedCudaActivities :=
          s.correlatedCudaActivities ++ [(g.correlationId, g)] } := by
    unfold checkTimestampOrder
    rw [hfreshg]
  have hl1 : lookupA (s.correlatedCudaActivities ++ [(r.correlationId, r)]) g.correlationId
      = some r := by
    rw [← hcorr]; exact lookupA_append_none hfresh r
  have hl2 : lookupA (s.correlatedCudaActivities ++ [(g.correlationId, g)]) r.correlationId
      = some g := by
    rw [hcorr]; exact lookupA_append_none hfreshg g
  constructor
  · rw [hs1, checkTimestampOrder_found _ g r hl1]
    by_cases h0 : g.timestamp = 0
    · simp [hr, h0]
    · by_cases hlt : g.timestamp < r.timestamp <;> simp [hr, h0, hlt]
  · rw [hs2, checkTimestampOrder_found _ r g hl2]
    by_cases h0 : g.timestamp = 0
    · simp [hgne, h0]
    · by_cases hlt : g.timestamp < r.timestamp <;> simp [hgne, h0, hlt]

/-- Witness for checkTimestampOrder_order_invariant. -/
theorem checkTimestampOrder_order_invariant_witness :
    (checkTimestampOrder (checkTimestampOrder {}
        { correlationId := 7, timestamp := 10, type := ActivityType.CUDA_RUNTIME })
        { correlationId := 7, timestamp := 5,
          type := ActivityType.CONCURRENT_KERNEL }).ecs.gpu_and_cpu_op_out_of_order =
      (({} : ProfilerState)).ecs.gpu_and_cpu_op_out_of_order +
        (if (5 : Int) ≠ 0 ∧ (5 : Int) < 10 then 1 else 0) ∧
    (checkTimestampOrder (checkTimestampOrder {}
        { correlationId := 7, timestamp := 5,
          type := ActivityType.CONCURRENT_KERNEL })
        { correlationId := 7, timestamp := 10,
          type := ActivityType.CUDA_RUNTIME }).ecs.gpu_and_cpu_op_out_of_order =
      (({} : ProfilerState)).ecs.gpu_and_cpu_op_out_of_order +
        (if (5 : Int) ≠ 0 ∧ (5 : Int) < 10 then 1 else 0) :=
  checkTimestampOrder_order_invariant {}
    { correlationId := 7, timestamp := 10, type := ActivityType.CUDA_RUNTIME }
    { correlationId := 7, timestamp := 5, type := ActivityType.CONCURRENT_KERNEL }
    rfl (Or.inl rfl) rfl rfl

/-- C9: for every activity type other than ENUM_COUNT, the registered name
round-trips through `toActivityType`; any string that matches none of the
`activityTypeCount` registered names is rejected (the source throws
std::invalid_argument, modelled as `none`). -/
theorem activityType_roundtrip :
    (∀ t : ActivityType, t ≠ ActivityType.ENUM_COUNT →
      toActivityType (toString t) = some t) ∧
    (∀ str : String, (∀ e ∈ map.take activityTypeCount, str ≠ e.name) →
      toActivityType str = none) := by
  constructor
  · intro t h
    cases t <;> first | rfl | exact absurd rfl h
  · intro str h
    unfold toActivityType
    rw [List.find?_eq_none.mpr]
    · rfl
    · intro e he
      have hne := h e he
      simp only [beq_eq_false_iff_ne, ne_eq, Bool.not_eq_true]
      exact fun hx => hne hx.symm

/-- Witness for activityType_roundtrip. -/
theorem activityType_roundtrip_witness :
    toActivityType (toString ActivityType.CONCURRENT_KERNEL) =
      some ActivityType.CONCURRENT_KERNEL ∧
    toActivityType "not_an_activity_type" = none :=
  ⟨activityType_roundtrip.1 ActivityType.CONCURRENT_KERNEL (by decide),
   activityType_roundtrip.2 "not_an_activity_type" (by decide)⟩

theorem transferCpuTrace_accept (s : ProfilerState) (b : CpuTraceBuffer)
    (hstate : s.currentRunloopState = RunloopState.CollectTrace ∨
      s.currentRunloopState = RunloopState.ProcessTrace) :
    transferCpuTrace s b =
      { s with
        iterationCountMap := (bumpIterationCount s.iterationCountMap b.span.name).2
        traceBuffers := some ((s.traceBuffers.getD []) ++
          [{ b with span := { b.span with iteration :=
              (bumpIterationCount s.iterationCountMap b.span.name).1 } }]) } := by
  unfold transferCpuTrace
  rcases hstate with h | h <;> simp [h]

theorem transferCpuTrace_fold_aux (nm : String) :
    ∀ (bufs : List CpuTraceBuffer) (s : ProfilerState) (c : Nat),
      (s.currentRunloopState = RunloopState.CollectTrace ∨
        s.currentRunloopState = RunloopState.ProcessTrace) →
      (lookupA s.iterationCountMap nm).getD 0 = c →
      (∀ b ∈ bufs, b.span.name = nm) →
      (List.foldl transferCpuTrace s bufs).traceBuffers.getD [] =
        (s.traceBuffers.getD []) ++ assignIters c bufs := by
  intro bufs
  induction bufs with
  | nil => intro s c _ _ _; simp [assignIters]
  | cons b rest ih =>
    intro s c hstate hcount hnames
    have hbnm : b.span.name = nm := hnames b (List.mem_cons_self b rest)
    rw [List.foldl_cons, transferCpuTrace_accept s b hstate]
    have hbump1 : (bumpIterationCount s.iterationCountMap b.span.name).1 = c := by
      rw [hbnm]
      unfold bumpIterationCount
      cases hl : lookupA s.iterationCountMap nm <;> simp [hl] at hcount ⊢ <;> omega
    have hbump2 : (lookupA (bumpIterationCount s.iterationCountMap b.span.name).2 nm).getD 0 =
        c + 1 := by
      rw [hbnm]
      unfold bumpIterationCount
      cases hl : lookupA s.iterationCountMap nm with
      | none =>
        simp [hl] at hcount
        simp [lookupA_append_none hl 1, ← hcount]
      | some n =>
        simp [hl] at hcount
        simp [lookupA_updateA_self, hl, hcount]
    have heq := ih
      ({ s with
          iterationCountMap := (bumpIterationCount s.iterationCountMap b.span.name).2
          traceBuffers := some ((s.traceBuffers.getD []) ++
            [{ b with span := { b.span with iteration :=
                (bumpIterationCount s.iterationCountMap b.span.name).1 } }]) })
      (c + 1) hstate hbump2 (fun x hx => hnames x (List.mem_cons_of_mem b hx))
    rw [heq]
    rw [hbnm] at hbump1
    simp [assignIters, hbump1, hbnm, List.append_assoc]

/-- C10: `transferCpuTrace` accepts a buffer only in CollectTrace or
ProcessTrace — in any other state it returns with no state change — and
accepted buffers sharing one span name get consecutive iteration indices
0, 1, 2, ... in arrival order. -/
theorem transferCpuTrace_spec :
    (∀ (s : ProfilerState) (b : CpuTraceBuffer),
      s.currentRunloopState ≠ RunloopState.CollectTrace →
      s.currentRunloopState ≠ RunloopState.ProcessTrace →
      transferCpuTrace s b = s) ∧
    (∀ (s : ProfilerState) (nm : String) (bufs : List CpuTraceBuffer),
      (s.currentRunloopState = RunloopState.CollectTrace ∨
        s.currentRunloopState = RunloopState.ProcessTrace) →
      lookupA s.iterationCountMap nm = none →
      (∀ b ∈ bufs, b.span.name = nm) →
      (List.foldl transferCpuTrace s bufs).traceBuffers.getD [] =
        (s.traceBuffers.getD []) ++ assignIters 0 bufs) := by
  constructor
  · intro s b h1 h2
    unfold transferCpuTrace
    simp [h1, h2]
  · intro s nm bufs hstate hfresh hnames
    exact transferCpuTrace_fold_aux nm bufs s 0 hstate (by simp [hfresh]) hnames

/-- Witness for transferCpuTrace_spec. -/
theorem transferCpuTrace_spec_witness :
    transferCpuTrace {} { span := { name := "fwd" } } = {} ∧
    (List.foldl transferCpuTrace { currentRunloopState := RunloopState.CollectTrace }
        [{ span := { name := "fwd" }, gpuOpCount := 1 },
         { span := { name := "fwd" }, gpuOpCount := 2 }]).traceBuffers.getD [] =
      (({ currentRunloopState := RunloopState.CollectTrace } :
          ProfilerState).traceBuffers.getD []) ++
        assignIters 0
          [{ span := { name := "fwd" }, gpuOpCount := 1 },
           { span := { name := "fwd" }, gpuOpCount := 2 }] :=
  ⟨transferCpuTrace_spec.1 {} { span := { name := "fwd" } } (by decide) (by decide),
   transferCpuTrace_spec.2 { currentRunloopState := RunloopState.CollectTrace } "fwd"
     [{ span := { name := "fwd" }, gpuOpCount := 1 },
      { span := { name := "fwd" }, gpuOpCount := 2 }]
     (Or.inl rfl) rfl (by decide)⟩

/-- Witness for warmup_early_stop_amended. -/
theorem warmup_early_stop_amended_witness :
    (performRunLoopStep
        { currentRunloopState := RunloopState.Warmup, stopCollection := true,
          ecs := { out_of_range_events := 3 } }
        7 8 9).currentRunloopState = RunloopState.WaitForRequest ∧
    (performRunLoopStep
        { currentRunloopState := RunloopState.Warmup, stopCollection := true,
          ecs := { out_of_range_events := 3 } }
        7 8 9).currentRunloopState ≠ RunloopState.CollectTrace ∧
    (performRunLoopStep
        { currentRunloopState := RunloopState.Warmup, stopCollection := true,
          ecs := { out_of_range_events := 3 } }
        7 8 9).ecs = {} :=
  warmup_early_stop_amended _ 7 8 9 rfl rfl

theorem mem_insertOnce {α : Type} [DecidableEq α] (l : List α) (x y : α) :
    x ∈ insertOnce l y ↔ x ∈ l ∨ x = y := by
  unfold insertOnce
  split_ifs with h
  · constructor
    · exact Or.inl
    · rintro (hx | rfl)
      · exact hx
      · exact h
  · simp

theorem outOfRange_proj (s : ProfilerState) (a : Act) :
    (outOfRange s a).2.seenDeviceStreams = s.seenDeviceStreams ∧
    (outOfRange s a).2.logQueue = s.logQueue ∧
    (outOfRange s a).2.captureWindowStartTime = s.captureWindowStartTime ∧
    (outOfRange s a).2.captureWindowEndTime = s.captureWindowEndTime ∧
    (outOfRange s a).2.rangeProfilingActive = s.rangeProfilingActive := by
  simp only [outOfRange]
  split_ifs <;> exact ⟨rfl, rfl, rfl, rfl, rfl⟩

theorem checkTimestampOrder_proj (s : ProfilerState) (a : Act) :
    (checkTimestampOrder s a).seenDeviceStreams = s.seenDeviceStreams ∧
    (checkTimestampOrder s a).logQueue = s.logQueue ∧
    (checkTimestampOrder s a).captureWindowStartTime = s.captureWindowStartTime ∧
    (checkTimestampOrder s a).captureWindowEndTime = s.captureWindowEndTime ∧
    (checkTimestampOrder s a).rangeProfilingActive = s.rangeProfilingActive := by
  rcases hl : lookupA s.correlatedCudaActivities a.correlationId with _ | act2
  · simp [checkTimestampOrder, hl]
  · simp only [checkTimestampOrder, hl]
    split_ifs <;> exact ⟨rfl, rfl, rfl, rfl, rfl⟩

theorem updateGpuNetSpan_proj (s : ProfilerState) (a : Act) :
    (updateGpuNetSpan s a).seenDeviceStreams = s.seenDeviceStreams ∧
    (updateGpuNetSpan s a).logQueue = s.logQueue ∧
    (updateGpuNetSpan s a).captureWindowStartTime = s.captureWindowStartTime ∧
    (updateGpuNetSpan s a).captureWindowEndTime = s.captureWindowEndTime ∧
    (updateGpuNetSpan s a).rangeProfilingActive = s.rangeProfilingActive := by
  rcases hla : a.linkedCorrelationId with _ | cid
  · simp [updateGpuNetSpan, hla]
  · rcases hk : lookupA s.clientActivityTraceMap cid with _ | pid <;>
      simp [updateGpuNetSpan, hla, hk]

theorem handleGpuUserAnnotationStep_proj (s : ProfilerState) (a : Act) :
    (handleGpuUserAnnotationStep s a).seenDeviceStreams = s.seenDeviceStreams ∧
    (handleGpuUserAnnotationStep s a).logQueue = s.logQueue ∧
    (handleGpuUserAnnotationStep s a).captureWindowStartTime = s.captureWindowStartTime ∧
    (handleGpuUserAnnotationStep s a).captureWindowEndTime = s.captureWindowEndTime ∧
    (handleGpuUserAnnotationStep s a).rangeProfilingActive = s.rangeProfilingActive := by
  unfold handleGpuUserAnnotationStep
  split_ifs with hc
  · rcases hl : lookupA s.userCorrelationMap a.correlationId with _ | ext
    · simp [hl]
    · rcases hl2 : lookupA s.activityMap ext with _ | cpuAct <;> simp [hl, hl2]
  · exact ⟨rfl, rfl, rfl, rfl, rfl⟩

theorem handleGpuActivity_proj (s : ProfilerState) (a : Act) :
    (handleGpuActivity s a).logQueue = s.logQueue ∧
    (handleGpuActivity s a).captureWindowStartTime = s.captureWindowStartTime ∧
    (handleGpuActivity s a).captureWindowEndTime = s.captureWindowEndTime ∧
    (handleGpuActivity s a).rangeProfilingActive = s.rangeProfilingActive := by
  simp only [handleGpuActivity]
  split_ifs with h
  · have hp := outOfRange_proj s a
    exact ⟨hp.2.1, hp.2.2.1, hp.2.2.2.1, hp.2.2.2.2⟩
  · simp only [handleGpuUserAnnotationStep_proj, updateGpuNetSpan_proj,
      checkTimestampOrder_proj, outOfRange_proj, and_self]

/-- The seen-stream set after one `handleGpuActivity` call: unchanged for an
out-of-range record, otherwise extended by the record's (device, stream). -/
theorem handleGpuActivity_seen (s : ProfilerState) (a : Act) :
    (handleGpuActivity s a).seenDeviceStreams =
      if (outOfRange s a).1 then s.seenDeviceStreams
      else insertOnce s.seenDeviceStreams (a.deviceId, a.resourceId) := by
  simp only [handleGpuActivity]
  split_ifs with h
  · exact (outOfRange_proj s a).1
  · simp only [handleGpuUserAnnotationStep_proj, updateGpuNetSpan_proj]
    simp only [checkTimestampOrder_proj, outOfRange_proj]

theorem outOfRange_fst_congr (s t : ProfilerState) (a : Act)
    (h1 : s.captureWindowStartTime = t.captureWindowStartTime)
    (h2 : s.captureWindowEndTime = t.captureWindowEndTime)
    (h3 : s.rangeProfilingActive = t.rangeProfilingActive) :
    (outOfRange s a).1 = (outOfRange t a).1 := by
  simp only [outOfRange, h1, h2, h3]

theorem foldl_handleGpuActivity_inv (acts : List Act) : ∀ (s : ProfilerState),
    (List.foldl handleGpuActivity s acts).logQueue = s.logQueue ∧
    (List.foldl handleGpuActivity s acts).captureWindowStartTime =
      s.captureWindowStartTime ∧
    (List.foldl handleGpuActivity s acts).captureWindowEndTime =
      s.captureWindowEndTime ∧
    (List.foldl handleGpuActivity s acts).rangeProfilingActive =
      s.rangeProfilingActive := by
  induction acts with
  | nil => intro s; exact ⟨rfl, rfl, rfl, rfl⟩
  | cons a rest ih =>
    intro s
    have hp := handleGpuActivity_proj s a
    have hi := ih (handleGpuActivity s a)
    simp only [List.foldl_cons]
    exact ⟨hi.1.trans hp.1, hi.2.1.trans hp.2.1, hi.2.2.1.trans hp.2.2.1,
      hi.2.2.2.trans hp.2.2.2⟩

theorem foldl_handleGpuActivity_seen_mem (x : Nat × Nat) (acts : List Act) :
    ∀ (s : ProfilerState),
      (x ∈ (List.foldl handleGpuActivity s acts).seenDeviceStreams ↔
        x ∈ s.seenDeviceStreams ∨
          ∃ a ∈ acts, a.deviceId = x.1 ∧ a.resourceId = x.2 ∧
            (outOfRange s a).1 = false) := by
  induction acts with
  | nil => intro s; simp
  | cons a rest ih =>
    intro s
    rw [List.foldl_cons, ih (handleGpuActivity s a)]
    have hproj := handleGpuActivity_proj s a
    have hoor : ∀ b : Act, (outOfRange (handleGpuActivity s a) b).1 =
        (outOfRange s b).1 :=
      fun b => outOfRange_fst_congr _ _ b hproj.2.1 hproj.2.2.1 hproj.2.2.2
    rw [handleGpuActivity_seen]
    by_cases h : (outOfRange s a).1 = true
    · rw [if_pos h]
      simp only [hoor]
      constructor
      · rintro (hx | ⟨b, hb, hb1, hb2, hb3⟩)
        · exact Or.inl hx
        · exact Or.inr ⟨b, List.mem_cons_of_mem a hb, hb1, hb2, hb3⟩
      · rintro (hx | ⟨b, hb, hb1, hb2, hb3⟩)
        · exact Or.inl hx
        · rcases List.mem_cons.mp hb with rfl | hbm
          · simp [h] at hb3
          · exact Or.inr ⟨b, hbm, hb1, hb2, hb3⟩
    · rw [if_neg h]
      have hfalse : (outOfRange s a).1 = false := by
        cases hv : (outOfRange s a).1
        · rfl
        · exact absurd hv h
      simp only [hoor, mem_insertOnce]
      constructor
      · rintro ((hx | hxeq) | ⟨b, hb, hb1, hb2, hb3⟩)
        · exact Or.inl hx
        · exact Or.inr ⟨a, List.mem_cons_self a rest, by rw [hxeq], by rw [hxeq],
            hfalse⟩
        · exact Or.inr ⟨b, List.mem_cons_of_mem a hb, hb1, hb2, hb3⟩
      · rintro (hx | ⟨b, hb, hb1, hb2, hb3⟩)
        · exact Or.inl (Or.inl hx)
        · rcases List.mem_cons.mp hb with rfl | hbm
          · exact Or.inl (Or.inr (by rw [hb1, hb2]))
          · exact Or.inr ⟨b, hbm, hb1, hb2, hb3⟩

/-- C3: a deferred wait-event entry queued for (device, stream) has its
deferred log action invoked at flush time if and only if at least one
non-sync GPU activity (kernel, memcpy or memset — the records routed through
`handleGpuActivity`) was observed in-window for the same (device, stream)
during the capture; otherwise it is silently dropped.  The list of processed
records covers the zero, one and many cases. -/
theorem logDeferredEvents_emits_iff_seen (s : ProfilerState) (acts : List Act)
    (e : DeferredLogEntry) (hq : e ∈ s.logQueue)
    (hnew : (e.device, e.stream) ∉ s.seenDeviceStreams) :
    (e ∈ logDeferredEvents (List.foldl handleGpuActivity s acts) ↔
      ∃ a ∈ acts, a.deviceId = e.device ∧ a.resourceId = e.stream ∧
        (outOfRange s a).1 = false) := by
  unfold logDeferredEvents
  rw [List.mem_filter]
  have hq2 : e ∈ (List.foldl handleGpuActivity s acts).logQueue := by
    rw [(foldl_handleGpuActivity_inv acts s).1]
    exact hq
  have hmem := foldl_handleGpuActivity_seen_mem (e.device, e.stream) acts s
  constructor
  · rintro ⟨_, hf⟩
    rw [decide_eq_true_eq] at hf
    rcases hmem.mp hf with hold | ⟨a, ha, h1, h2, h3⟩
    · exact absurd hold hnew
    · exact ⟨a, ha, h1, h2, h3⟩
  · rintro ⟨a, ha, h1, h2, h3⟩
    refine ⟨hq2, ?_⟩
    rw [decide_eq_true_eq]
    exact hmem.mpr (Or.inr ⟨a, ha, h1, h2, h3⟩)

/-- Witness for logDeferredEvents_emits_iff_seen. -/
theorem logDeferredEvents_emits_iff_seen_witness :
    ({ device := 1, stream := 2 } : DeferredLogEntry) ∈
      logDeferredEvents (List.foldl handleGpuActivity
        { logQueue := [{ device := 1, stream := 2 }], captureWindowEndTime := 100 }
        [{ deviceId := 1, resourceId := 2, timestamp := 5, duration := 10 }]) :=
  (logDeferredEvents_emits_iff_seen
      { logQueue := [{ device := 1, stream := 2 }], captureWindowEndTime := 100 }
      [{ deviceId := 1, resourceId := 2, timestamp := 5, duration := 10 }]
      { device := 1, stream := 2 }
      (by decide) (by decide)).mpr
    ⟨{ deviceId := 1, resourceId := 2, timestamp := 5, duration := 10 },
      by decide, rfl, rfl, by decide⟩

/-- C4 counterexample: span widening is not order-independent when a record
carries the timestamp-0 range-profiling sentinel, because the widening treats
a stored start time of 0 as unset.  With a span pair at start time 0 and two
linked records with timestamps 0 and 7, the two processing orders end with
GPU-span start times 7 and 0 respectively. -/
theorem span_widening_order_counterexample :
    List.foldl updateGpuNetSpan
        { clientActivityTraceMap := [(5, 0)], spanPairs := [(0, ({}, {}))] }
        [{ timestamp := 0, duration := 1, linkedCorrelationId := some 5 },
         { timestamp := 7, duration := 1, linkedCorrelationId := some 5 }] ≠
      List.foldl updateGpuNetSpan
        { clientActivityTraceMap := [(5, 0)], spanPairs := [(0, ({}, {}))] }
        [{ timestamp := 7, duration := 1, linkedCorrelationId := some 5 },
         { timestamp := 0, duration := 1, linkedCorrelationId := some 5 }] := by
  decide

/-- C4 amended: GPU span widening (`updateGpuNetSpan`, and likewise
`GpuUserEventMap::insertOrExtendEvent` for records sharing one (device,
stream) key and one linked CPU activity) is order-independent provided every
record has a nonzero timestamp: processing any permutation of the records
yields the same final state.  A zero-timestamp record (the range-profiling
sentinel) is excluded, since the widening treats a stored start time of 0 as
unset. -/
theorem span_widening_perm_invariant :
    (∀ (s : ProfilerState) (l₁ l₂ : List Act), l₁.Perm l₂ →
      (∀ a ∈ l₁, a.timestamp ≠ 0) →
      List.foldl updateGpuNetSpan s l₁ = List.foldl updateGpuNetSpan s l₂) ∧
    (∀ (m : StreamSpanMap) (cpuTraceActivity : Act) (d st : Nat)
        (l₁ l₂ : List Act), l₁.Perm l₂ →
      (∀ g ∈ l₁, g.timestamp ≠ 0 ∧ g.deviceId = d ∧ g.resourceId = st) →
      List.foldl (fun mm g => insertOrExtendEvent mm cpuTraceActivity g) m l₁ =
        List.foldl (fun mm g => insertOrExtendEvent mm cpuTraceActivity g) m l₂) := by
  constructor
  · intro s l₁ l₂ hp hP
    exact foldl_perm_of_comm
      (fun x y hx hy z => updateGpuNetSpan_comm z x y hx hy) hp hP s
  · intro m cpuTraceActivity d st l₁ l₂ hp hP
    exact foldl_perm_of_comm
      (fun x y hx hy z => insertOrExtendEvent_comm z cpuTraceActivity x y hx.1 hy.1
        (hx.2.1.trans hy.2.1.symm) (hx.2.2.trans hy.2.2.symm)) hp hP m

/-- Witness for span_widening_perm_invariant. -/
theorem span_widening_perm_invariant_witness :
    List.foldl updateGpuNetSpan
        { clientActivityTraceMap := [(5, 0)], spanPairs := [(0, ({}, {}))] }
        [{ timestamp := 3, duration := 1, linkedCorrelationId := some 5 },
         { timestamp := 7, duration := 1, linkedCorrelationId := some 5 }] =
      List.foldl updateGpuNetSpan
        { clientActivityTraceMap := [(5, 0)], spanPairs := [(0, ({}, {}))] }
        [{ timestamp := 7, duration := 1, linkedCorrelationId := some 5 },
         { timestamp := 3, duration := 1, linkedCorrelationId := some 5 }] ∧
    List.foldl (fun mm g => insertOrExtendEvent mm { correlationId := 9 } g) []
        [{ timestamp := 3, duration := 1, deviceId := 1, resourceId := 2 },
         { timestamp := 7, duration := 1, deviceId := 1, resourceId := 2 }] =
      List.foldl (fun mm g => insertOrExtendEvent mm { correlationId := 9 } g) []
        [{ timestamp := 7, duration := 1, deviceId := 1, resourceId := 2 },
         { timestamp := 3, duration := 1, deviceId := 1, resourceId := 2 }] :=
  ⟨span_widening_perm_invariant.1
      { clientActivityTraceMap := [(5, 0)], spanPairs := [(0, ({}, {}))] }
      _ _ (List.Perm.swap _ _ _) (by decide),
   span_widening_perm_invariant.2 [] { correlationId := 9 } 1 2
      _ _ (List.Perm.swap _ _ _) (by decide)⟩

end libkineto
